import Mathlib

/-!
# Verification of the PORTFOLIO repository's canvas animations, slider and mailer

Shallow embedding of the JavaScript canvas-background variants (`ai-bg.js` wave
and mesh variants, `header-bg.js` tesseract), `slider.js`, and the control flow
of `sendmail.php`.  Machine numbers are modelled by `ℚ` (exact rational
arithmetic) where the code is algebraic, and by `ℝ` where the code uses
transcendental functions (`Math.cos`, `Math.sin`, `Math.PI`, `Math.sqrt`);
JavaScript property access on objects is modelled by `Option`-valued lookup
(accessing a field of `undefined` throws, modelled by `Except`).
-/

namespace Portfolio

/-! ## Mesh variant (`ai-bg.js`, part_004): configuration and colors

The `cfg` object of the mesh variant.  `cfg.colors` is a JS object literal
with keys `primary`, `accent1`, `accent2`, `highlight`, `energy`; property
access on it is modelled as a lookup returning `Option` (a missing key is
`undefined` in JS). -/

/-- RGB triple as it appears in the `cfg.colors` object literal. -/
def RGB := ℚ × ℚ × ℚ

/-- `cfg.colors` of the mesh variant (part_004 lines 26–33), as a key lookup:
`{primary: [0,180,255], accent1: [60,240,220], accent2: [140,80,255],
highlight: [255,140,60], energy: [40,210,255]}`.  Any other key reads as
`undefined` (`none`). -/
def cfgMeshColors : String → Option RGB := fun k =>
  if k = "primary" then some (0, 180, 255)
  else if k = "accent1" then some (60, 240, 220)
  else if k = "accent2" then some (140, 80, 255)
  else if k = "highlight" then some (255, 140, 60)
  else if k = "energy" then some (40, 210, 255)
  else none

/-- Numeric fields of the mesh variant's `cfg` (part_004 lines 16–36). -/
structure MeshCfg where
  baseNodes : ℚ
  kNeighbors : ℕ
  depth : ℚ
  layerCount : ℕ
  lineWidth : ℚ
  glow : ℚ
  speed : ℚ
  flowScale : ℚ
  flowStrength : ℚ
  pulseSpeed : ℚ
  pathDeviation : ℚ

/-- The shipped mesh configuration values. -/
def cfgMesh : MeshCfg :=
  { baseNodes := 180, kNeighbors := 6, depth := 2000, layerCount := 4
    lineWidth := 0.8, glow := 12, speed := 0.00065, flowScale := 2800
    flowStrength := 0.14, pulseSpeed := 0.00045, pathDeviation := 0.3 }

/-- `lerp(a,b,t) = a + (b-a)*t` (part_004 line 133). -/
def lerp (a b t : ℚ) : ℚ := a + (b - a) * t

/-- JavaScript `Math.round` on an exact rational: round half toward `+∞`. -/
def jsRound (x : ℚ) : ℤ := ⌊x + 1/2⌋

/-- `mix(a,b,t)` (part_004 line 134) componentwise-lerps two color triples and
rounds.  When either argument is `undefined` (a missing `cfg.colors` key),
JavaScript throws a `TypeError` on the element access `a[0]`; that error path
is the `Except.error` case. -/
def mix (a b : Option RGB) (t : ℚ) : Except Unit (ℤ × ℤ × ℤ) :=
  match a, b with
  | some a, some b =>
      .ok (jsRound (lerp a.1 b.1 t), jsRound (lerp a.2.1 b.2.1 t),
           jsRound (lerp a.2.2 b.2.2 t))
  | _, _ => .error ()

/-- The per-layer base-color computation of `drawMesh` (part_004 lines
201–204): for `layerIdx` from `layerCount-1` down to `0`,
`layerTint = layerIdx / max(1, layerCount-1)` and
`baseColor = mix(cfg.colors.blue, cfg.colors.cyan, layerTint*0.6)`.
The whole frame aborts (`Except.error`) as soon as one `mix` throws. -/
def layerBaseColors (colors : String → Option RGB) (layerCount : ℕ) :
    Except Unit (List (ℤ × ℤ × ℤ)) :=
  ((List.range layerCount).reverse).mapM fun layerIdx =>
    let layerTint : ℚ := (layerIdx : ℚ) / max 1 ((layerCount : ℚ) - 1)
    mix (colors "blue") (colors "cyan") (layerTint * 0.6)

/-! ## Mesh variant: per-frame wraparound (part_004 lines 166–170) -/

/-- The wraparound applied to a node's position in `drawMesh`
(part_004 lines 166–170):
`if(n.x < -width*0.3) n.x = width*1.3; if(n.x > width*1.3) n.x = -width*0.3;`
and the same for `y` with `height`, executed in that order. -/
def wrapNode (width height x y : ℚ) : ℚ × ℚ :=
  let x1 := if x < -(width * 0.3) then width * 1.3 else x
  let x2 := if x1 > width * 1.3 then -(width * 0.3) else x1
  let y1 := if y < -(height * 0.3) then height * 1.3 else y
  let y2 := if y1 > height * 1.3 then -(height * 0.3) else y1
  (x2, y2)

/-! ## Animation loops: FPS cap and visibility gating

The frame bodies (`clear(); drawMesh(now)` resp. the wave drawing) only run
when the gate conditions pass; they are abstracted as a function on an
arbitrary world type `W` (the nodes, the canvas bitmap, …), since the claims
about the gates hold for any body. -/

/-- Mesh variant (part_004 lines 283–284): `FPS = 30; FRAME_INTERVAL = 1000/FPS`. -/
def meshFrameInterval : ℚ := 1000 / 30

/-- Wave variant (part_001 lines 23, 31): `cfg.fps = 45; frameInterval = 1000 / cfg.fps`. -/
def waveFrameInterval : ℚ := 1000 / 45

/-- Mutable state read and written by the mesh variant's `loop` (part_004):
the `visible` flag, `lastFrameTime`, and everything the frame body touches
(nodes and canvas), abstracted as `world`. -/
structure MeshLoopState (W : Type) where
  visible : Bool
  lastFrameTime : ℚ
  world : W

/-- One invocation of the mesh `loop(now)` callback (part_004 lines 287–298):
```
if(!visible){ raf = requestAnimationFrame(loop); return; }
if(now - lastFrameTime < FRAME_INTERVAL){ raf = requestAnimationFrame(loop); return; }
lastFrameTime = now; clear(); drawMesh(now); raf = requestAnimationFrame(loop);
```
Returns the new state and whether the frame body (`clear` + `drawMesh`) ran;
re-scheduling happens on every path. -/
def meshLoop {W : Type} (frameBody : ℚ → W → W) (now : ℚ)
    (st : MeshLoopState W) : MeshLoopState W × Bool :=
  if st.visible = false then (st, false)
  else if now - st.lastFrameTime < meshFrameInterval then (st, false)
  else ({ st with lastFrameTime := now, world := frameBody now st.world }, true)

/-- Mutable state of the wave variant's `drawFrame` (part_001): `lastFrame`
and the drawn world. -/
structure WaveLoopState (W : Type) where
  lastFrame : ℚ
  world : W

/-- One invocation of the wave `drawFrame(t)` callback (part_001 lines 76–84):
```
if(t - lastFrame < frameInterval){ requestAnimationFrame(drawFrame); return; }
lastFrame = t; clear(); /* draw waves */ requestAnimationFrame(drawFrame);
```
Returns the new state and whether the frame body ran. -/
def waveDrawFrame {W : Type} (frameBody : ℚ → W → W) (t : ℚ)
    (st : WaveLoopState W) : WaveLoopState W × Bool :=
  if t - st.lastFrame < waveFrameInterval then (st, false)
  else ({ lastFrame := t, world := frameBody t st.world }, true)

/-! ## `resize` of the wave and mesh variants

`resize` reads `window.devicePixelRatio` (`0` models a falsy/absent value,
so that `window.devicePixelRatio || 1` is `jsOr`), `window.innerWidth`
and `window.innerHeight`, and writes the CSS size, the backing-store size
and the context transform. -/

/-- JavaScript `a || b` for numbers: `b` when `a` is falsy (`0`), else `a`. -/
def jsOr (a b : ℚ) : ℚ := if a = 0 then b else a

/-- Everything a `resize` call writes: the clamped `dpr`, the CSS width and
height (`canvas.style.width/height`), the backing-store dimensions
(`canvas.width/height`), and the `setTransform` arguments. -/
structure ResizeOut where
  dpr : ℚ
  cssW : ℚ
  cssH : ℚ
  backingW : ℤ
  backingH : ℤ
  transform : ℚ × ℚ × ℚ × ℚ × ℚ × ℚ

/-- The wave variant's `resize` (part_001 lines 50–59):
```
dpr = Math.min(window.devicePixelRatio || 1, cfg.dprMax);   // dprMax = 2
w = Math.max(1, Math.floor(window.innerWidth));
h = Math.max(1, Math.floor(window.innerHeight));
canvas.style.width = w+'px'; canvas.style.height = h+'px';
canvas.width = Math.floor(w * dpr); canvas.height = Math.floor(h * dpr);
ctx.setTransform(dpr,0,0,dpr,0,0);
``` -/
def resizeWave (dprRaw innerW innerH : ℚ) : ResizeOut :=
  let dpr := min (jsOr dprRaw 1) 2
  let w : ℚ := max 1 (⌊innerW⌋ : ℚ)
  let h : ℚ := max 1 (⌊innerH⌋ : ℚ)
  { dpr := dpr, cssW := w, cssH := h
    backingW := ⌊w * dpr⌋, backingH := ⌊h * dpr⌋
    transform := (dpr, 0, 0, dpr, 0, 0) }

/-- The mesh variant's `resize` (part_004 lines 52–61):
```
dpr = Math.min(window.devicePixelRatio || 1, 2);
width = window.innerWidth; height = window.innerHeight;
canvas.width  = Math.max(1, Math.floor(width * dpr));
canvas.height = Math.max(1, Math.floor(height * dpr));
canvas.style.width = width+'px'; canvas.style.height = height+'px';
ctx.setTransform(dpr,0,0,dpr,0,0);
``` -/
def resizeMesh (dprRaw innerW innerH : ℚ) : ResizeOut :=
  let dpr := min (jsOr dprRaw 1) 2
  { dpr := dpr, cssW := innerW, cssH := innerH
    backingW := max 1 ⌊innerW * dpr⌋, backingH := max 1 ⌊innerH * dpr⌋
    transform := (dpr, 0, 0, dpr, 0, 0) }

/-! ## The mailer (`sendmail.php`)

The script's control flow: inside `try`, the PHPMailer calls that can throw
(with `new PHPMailer(true)` the library throws `Exception` on failure) are
`setFrom`, `addAddress` and `send`; the `catch` echoes
`'Failed to send: ', $mail->ErrorInfo`.  Each library call's behavior on the
given POST data is an `Except Unit Unit` (thrown exception payloads are not
inspected — the catch reads `$mail->ErrorInfo` instead, captured in
`errorInfo`). -/

/-- The library's behavior on one request: whether `setFrom`, `addAddress`
and `send` return normally or throw, and the value `$mail->ErrorInfo` holds
when the `catch` block reads it. -/
structure LibBehavior where
  setFromR : Except Unit Unit
  addAddressR : Except Unit Unit
  sendR : Except Unit Unit
  errorInfo : String

/-- The `try` block's library interactions in program order (sendmail.php
lines 24–31): `setFrom`, then `addAddress`, then `send`; a thrown exception
aborts the rest of the block and propagates to the `catch`. -/
def tryBlock (b : LibBehavior) : Except Unit Unit :=
  match b.setFromR with
  | .error e => .error e
  | .ok _ =>
    match b.addAddressR with
    | .error e => .error e
    | .ok _ => b.sendR

/-- The chunks echoed by sendmail.php: `echo 'Message sent successfully!';`
on normal completion, `echo 'Failed to send: ', $mail->ErrorInfo;` in the
`catch (Exception $e)` handler. -/
def sendmailEcho (b : LibBehavior) : List String :=
  match tryBlock b with
  | .ok _ => ["Message sent successfully!"]
  | .error _ => ["Failed to send: ", b.errorInfo]

/-! ## Slider (`slider.js`) -/

/-- JavaScript's `%` operator on integers is the truncated-division remainder,
i.e. `Int.tmod`. -/
def jsMod (a n : ℤ) : ℤ := Int.tmod a n

/-- `showSlide(i)` (slider.js lines 6–9) sets
`index = (i + images.length) % images.length`; `n` is the image count. -/
def showSlide (n i : ℤ) : ℤ := jsMod (i + n) n

/-! ## Tesseract wireframe (`header-bg.js`, part_006 lines 27–44, and the
identical header copy in part_000 lines 154–168) -/

/-- The vertex array built by
```
for(let i=0;i<16;i++){
  const x = (i & 1) ? 1 : -1; const y = (i & 2) ? 1 : -1;
  const z = (i & 4) ? 1 : -1; const w4 = (i & 8) ? 1 : -1;
  verts4.push([x,y,z,w4]);
}
``` -/
def verts4 : List (List ℤ) :=
  (List.range 16).map fun i =>
    [if i &&& 1 ≠ 0 then 1 else -1,
     if i &&& 2 ≠ 0 then 1 else -1,
     if i &&& 4 ≠ 0 then 1 else -1,
     if i &&& 8 ≠ 0 then 1 else -1]

/-- The inner count of `for(let k=0;k<4;k++) if(verts4[i][k] !== verts4[j][k]) diff++`:
the number of coordinates where two vertex rows differ. -/
def diffCount (a b : List ℤ) : ℕ := ((a.zip b).filter fun p => p.1 ≠ p.2).length

/-- The edge array built by
```
for(let i=0;i<16;i++) for(let j=i+1;j<16;j++){
  let diff = 0; for(let k=0;k<4;k++) if(verts4[i][k] !== verts4[j][k]) diff++;
  if(diff === 1) edges.push([i,j]);
}
``` -/
def tessEdges : List (ℕ × ℕ) :=
  (List.range 16).flatMap fun i =>
    (((List.range 16).filter fun j =>
        decide (i < j) && decide (diffCount (verts4.getD i []) (verts4.getD j []) = 1)).map
      fun j => (i, j))

/-- `headerVerts4` of part_000 (lines 154–161): textually the same
construction as `verts4` of part_006. -/
def headerVerts4 : List (List ℤ) :=
  (List.range 16).map fun i =>
    [if i &&& 1 ≠ 0 then 1 else -1,
     if i &&& 2 ≠ 0 then 1 else -1,
     if i &&& 4 ≠ 0 then 1 else -1,
     if i &&& 8 ≠ 0 then 1 else -1]

/-- `headerEdges` of part_000 (lines 162–168): the same construction as
`tessEdges` over `headerVerts4`. -/
def headerEdges : List (ℕ × ℕ) :=
  (List.range 16).flatMap fun i =>
    (((List.range 16).filter fun j =>
        decide (i < j) && decide (diffCount (headerVerts4.getD i []) (headerVerts4.getD j []) = 1)).map
      fun j => (i, j))

/-! ## 4D rotation and projection (part_006 lines 58–86, part_000 lines 170–185)

The geometry runs on IEEE doubles approximating reals; it is embedded over
`ℝ` with `Real.cos`/`Real.sin` (hence `noncomputable`). -/

/-- A tesseract vertex row as a 4-vector over `ℝ`. -/
def vecOfRow (l : List ℤ) : Fin 4 → ℝ := fun k => ((l.getD k 0 : ℤ) : ℝ)

/-- The 16 tesseract vertices as real 4-vectors (`verts4.map(...)`). -/
def verts4R : List (Fin 4 → ℝ) := verts4.map vecOfRow

/-- `rot4(v, a, b, theta)` (part_006 lines 58–64): plane rotation of
components `a` and `b` by `theta`:
```
const ca = Math.cos(theta), sa = Math.sin(theta);
const va = v[a], vb = v[b];
v[a] = va * ca - vb * sa; v[b] = va * sa + vb * ca;
``` -/
noncomputable def rot4 (theta : ℝ) (a b : Fin 4) (v : Fin 4 → ℝ) : Fin 4 → ℝ :=
  let ca := Real.cos theta
  let sa := Real.sin theta
  fun k => if k = a then v a * ca - v b * sa
           else if k = b then v a * sa + v b * ca
           else v k

/-- The rotation chain of `project4To2` (part_006 lines 69–72):
`rot4(p,0,1,theta*0.7); rot4(p,2,3,theta*0.5); rot4(p,0,2,theta*0.35);`
applied in program order to a copy of the vertex. -/
noncomputable def rotatedPoint (v : Fin 4 → ℝ) (theta : ℝ) : Fin 4 → ℝ :=
  rot4 (theta * 0.35) 0 2 (rot4 (theta * 0.5) 2 3 (rot4 (theta * 0.7) 0 1 v))

/-- The perspective divisor of `project4To2` (part_006 lines 75–76):
`distance - p[3] * 0.9` with `distance = 3.0`. -/
noncomputable def projDivisor (v : Fin 4 → ℝ) (theta : ℝ) : ℝ :=
  3.0 - rotatedPoint v theta 3 * 0.9

/-- `project4To2(v, theta)` (part_006 lines 66–86): rotate, perspective-divide
from 4D to 3D, then project to 2D; returns `[x2, y2, z3]`. -/
noncomputable def project4To2 (v : Fin 4 → ℝ) (theta : ℝ) : ℝ × ℝ × ℝ :=
  let p := rotatedPoint v theta
  let distance : ℝ := 3.0
  let wCoord := 1 / (distance - p 3 * 0.9)
  let x3 := p 0 * wCoord
  let y3 := p 1 * wCoord
  let z3 := p 2 * wCoord
  let f : ℝ := 1.4
  (x3 * f * (1 + z3 * 0.08), y3 * f * (1 + z3 * 0.08), z3)

/-- The rotation chain of `project4To2_small` (part_000 lines 175–177):
`rot(0,1,theta*0.9); rot(2,3,theta*0.6); rot(0,2,theta*0.35);`. -/
noncomputable def rotatedPointSmall (v : Fin 4 → ℝ) (theta : ℝ) : Fin 4 → ℝ :=
  rot4 (theta * 0.35) 0 2 (rot4 (theta * 0.6) 2 3 (rot4 (theta * 0.9) 0 1 v))

/-- The perspective divisor of `project4To2_small` (part_000 lines 178–179):
`distance - p[3] * 0.85` with `distance = 3.2`. -/
noncomputable def projDivisorSmall (v : Fin 4 → ℝ) (theta : ℝ) : ℝ :=
  3.2 - rotatedPointSmall v theta 3 * 0.85

/-- Squared Euclidean norm of a 4-vector. -/
def nsq (v : Fin 4 → ℝ) : ℝ := v 0 ^ 2 + v 1 ^ 2 + v 2 ^ 2 + v 3 ^ 2

/-! ## Mesh nodes: `buildNodes` (part_004 lines 90–112) and the resize handler
(part_004 line 301) -/

/-- One node record as pushed by `buildNodes` (part_004 lines 100–110),
minus the `neighbors` field added later by `computeNeighbors`. -/
structure MeshNode where
  x : ℝ
  y : ℝ
  z : ℝ
  vx : ℝ
  vy : ℝ
  energy : ℝ
  offset : ℝ
  layer : ℤ
  pathOffset : ℝ
  lastUpdate : ℝ

/-- The `Math.random()` draws consumed while building one node, in source
order: `angle`, `rad`, `z`, `energy`, `offset`, `layer`, `pathOffset`.
Each models one call returning a value in `[0, 1)`. -/
structure NodeDraws where
  angleD : ℝ
  radD : ℝ
  zD : ℝ
  energyD : ℝ
  offsetD : ℝ
  layerD : ℝ
  pathD : ℝ

/-- One iteration of the `buildNodes` loop (part_004 lines 97–111):
```
const angle = Math.random() * Math.PI * 2;
const rad = Math.random() * 0.8 + 0.2;
nodes.push({
  x: width/2 + Math.cos(angle) * (width/2 * rad * 1.4),
  y: height/2 + Math.sin(angle) * (height/2 * rad * 1.4),
  z: Math.random() * cfg.depth, vx: 0, vy: 0,
  energy: Math.random(), offset: Math.random() * Math.PI * 2,
  layer: Math.floor(Math.random() * cfg.layerCount),
  pathOffset: Math.random() * Math.PI * 2, lastUpdate: 0 });
``` -/
noncomputable def mkNode (width height : ℝ) (d : NodeDraws) : MeshNode :=
  let angle := d.angleD * Real.pi * 2
  let rad := d.radD * 0.8 + 0.2
  { x := width / 2 + Real.cos angle * (width / 2 * rad * 1.4)
    y := height / 2 + Real.sin angle * (height / 2 * rad * 1.4)
    z := d.zD * (cfgMesh.depth : ℝ)
    vx := 0
    vy := 0
    energy := d.energyD
    offset := d.offsetD * Real.pi * 2
    layer := ⌊d.layerD * (cfgMesh.layerCount : ℝ)⌋
    pathOffset := d.pathD * Real.pi * 2
    lastUpdate := 0 }

/-- `buildNodes()` (part_004 lines 90–112): starts from `nodes = []` and
pushes `count = Math.max(80, Math.floor(cfg.baseNodes * scale * dpr))` fresh
records, where `scale = Math.sqrt(width*height/(1280*720))`; `draws i` are
the random values consumed by the `i`-th iteration. -/
noncomputable def buildNodes (width height dpr : ℝ) (draws : ℕ → NodeDraws) :
    List MeshNode :=
  let area := width * height
  let scale := Real.sqrt (area / (1280 * 720))
  let count : ℤ := max 80 ⌊(cfgMesh.baseNodes : ℝ) * scale * dpr⌋
  (List.range count.toNat).map fun i => mkNode width height (draws i)

/-- The module-level mutable state touched by the mesh variant's resize
handler: `width`, `height`, `dpr` and `nodes`. -/
structure MeshAppState where
  width : ℝ
  height : ℝ
  dpr : ℝ
  nodes : List MeshNode

/-- The resize listener of the mesh variant (part_004 line 301):
`window.addEventListener('resize', ()=>{ resize(); buildNodes(); computeNeighbors(); })`.
`resize()` re-reads `devicePixelRatio` (`0` modelling a falsy value, as in
`window.devicePixelRatio || 1`), `innerWidth`, `innerHeight`; then
`buildNodes()` overwrites `nodes` with a freshly built array. -/
noncomputable def onResize (dprRaw innerW innerH : ℝ) (draws : ℕ → NodeDraws)
    (st : MeshAppState) : MeshAppState :=
  let dpr := min (if dprRaw = 0 then 1 else dprRaw) 2
  let st1 : MeshAppState :=
    { st with dpr := dpr, width := innerW, height := innerH }
  { st1 with nodes := buildNodes st1.width st1.height st1.dpr draws }

/-! ## Theorems -/

/-- C1: the claim says `drawMesh` never throws for any configuration, and in
particular not while computing per-layer line colors.  On the repository's own
configuration this fails: `drawMesh` reads `cfg.colors.blue` and
`cfg.colors.cyan`, keys absent from the shipped `cfg.colors`
(`primary`/`accent1`/`accent2`/`highlight`/`energy`), so the first per-layer
base-color computation evaluates `mix(undefined, undefined, …)` and throws a
`TypeError`, aborting every frame. -/
theorem c1_drawMesh_layer_color_throws :
    cfgMeshColors "blue" = none ∧ cfgMeshColors "cyan" = none ∧
    cfgMeshColors "orange" = none ∧
    layerBaseColors cfgMeshColors cfgMesh.layerCount = .error () :=
  ⟨rfl, rfl, rfl, rfl⟩

/-- C2 counterexample: with `width = height = 100`, a node at `(120, 50)` lies
inside the wrap band, so the wrap step leaves it at `x = 120`; the claimed
invariant `0 ≤ x ≤ width` fails (`120 ≤ 100` is false). -/
theorem c2_wrap_counterexample :
    (wrapNode 100 100 120 50).1 = 120 ∧ ¬((wrapNode 100 100 120 50).1 ≤ 100) := by
  norm_num [wrapNode]

/-- C2 (amended): after the wraparound step of the per-frame node update,
every node's position lies within the extended band around the canvas:
`-0.3·width ≤ x ≤ 1.3·width` and `-0.3·height ≤ y ≤ 1.3·height` (not within
`[0,width] × [0,height]`). -/
theorem c2_wrap_within_band (width height x y : ℚ)
    (hw : 0 ≤ width) (hh : 0 ≤ height) :
    -(width * 0.3) ≤ (wrapNode width height x y).1 ∧
    (wrapNode width height x y).1 ≤ width * 1.3 ∧
    -(height * 0.3) ≤ (wrapNode width height x y).2 ∧
    (wrapNode width height x y).2 ≤ height * 1.3 := by
  simp only [wrapNode]
  split_ifs <;> refine ⟨?_, ?_, ?_, ?_⟩ <;> linarith

/-- C2 witness: the amended band invariant at width = height = 100,
node (120, 50). -/
theorem c2_wrap_within_band_witness :
    -((100 : ℚ) * 0.3) ≤ (wrapNode 100 100 120 50).1 ∧
    (wrapNode 100 100 120 50).1 ≤ (100 : ℚ) * 1.3 ∧
    -((100 : ℚ) * 0.3) ≤ (wrapNode 100 100 120 50).2 ∧
    (wrapNode 100 100 120 50).2 ≤ (100 : ℚ) * 1.3 :=
  c2_wrap_within_band 100 100 120 50 (by norm_num) (by norm_num)

/-- C3: for every POST carrying the three fields, the mailer echoes exactly
one plain-text outcome: `Message sent successfully!` iff the library's calls
(ending in `send()`) all return without throwing, and
`Failed to send: ` followed by the library's error info iff the library threw
its `Exception`; no other output path exists. -/
theorem c3_mailer_outcomes (b : LibBehavior) :
    (tryBlock b = .ok () ↔
      b.setFromR = .ok () ∧ b.addAddressR = .ok () ∧ b.sendR = .ok ()) ∧
    (sendmailEcho b = ["Message sent successfully!"] ↔ tryBlock b = .ok ()) ∧
    (sendmailEcho b = ["Failed to send: ", b.errorInfo] ↔
      tryBlock b = .error ()) ∧
    (sendmailEcho b = ["Message sent successfully!"] ∨
      sendmailEcho b = ["Failed to send: ", b.errorInfo]) ∧
    ¬(sendmailEcho b = ["Message sent successfully!"] ∧
      sendmailEcho b = ["Failed to send: ", b.errorInfo]) := by
  obtain ⟨s, a, d, info⟩ := b
  rcases s with ⟨⟨⟩⟩ | ⟨⟨⟩⟩ <;> rcases a with ⟨⟨⟩⟩ | ⟨⟨⟩⟩ <;>
    rcases d with ⟨⟨⟩⟩ | ⟨⟨⟩⟩ <;>
    simp [sendmailEcho, tryBlock, Except.bind]

/-- C4: both animation loops are FPS-capped: the frame body runs only when
the time since the last drawn frame is at least `1000/45` ms (wave variant)
resp. `1000/30` ms (mesh variant); otherwise the callback only re-schedules
and leaves all state unchanged. -/
theorem c4_fps_cap {Wm Ww : Type} (meshBody : ℚ → Wm → Wm)
    (waveBody : ℚ → Ww → Ww) (now : ℚ) (stM : MeshLoopState Wm)
    (stW : WaveLoopState Ww) :
    (now - stW.lastFrame < waveFrameInterval →
      waveDrawFrame waveBody now stW = (stW, false)) ∧
    ((waveDrawFrame waveBody now stW).2 = true →
      waveFrameInterval ≤ now - stW.lastFrame) ∧
    (stM.visible = true → now - stM.lastFrameTime < meshFrameInterval →
      meshLoop meshBody now stM = (stM, false)) ∧
    ((meshLoop meshBody now stM).2 = true →
      meshFrameInterval ≤ now - stM.lastFrameTime) := by
  refine ⟨fun h => ?_, fun h => ?_, fun hv h => ?_, fun h => ?_⟩
  · simp [waveDrawFrame, h]
  · by_cases hc : now - stW.lastFrame < waveFrameInterval
    · simp [waveDrawFrame, hc] at h
    · linarith [not_lt.1 hc]
  · simp [meshLoop, hv, h]
  · by_cases hvis : stM.visible = false
    · simp [meshLoop, hvis] at h
    · by_cases hc : now - stM.lastFrameTime < meshFrameInterval
      · simp [meshLoop, hvis, hc] at h
      · linarith [not_lt.1 hc]

/-- C4 witness: at timestamp 1 with last frame at 0, both loops skip
(1 ms < 1000/45 ms and 1 ms < 1000/30 ms) and leave their state unchanged. -/
theorem c4_fps_cap_witness :
    waveDrawFrame (fun _ (w : Unit) => w) 1 ⟨0, ()⟩ = (⟨0, ()⟩, false) ∧
    meshLoop (fun _ (w : Unit) => w) 1 ⟨true, 0, ()⟩ = (⟨true, 0, ()⟩, false) :=
  ⟨(c4_fps_cap (fun _ (w : Unit) => w) (fun _ (w : Unit) => w) 1
      ⟨true, 0, ()⟩ ⟨0, ()⟩).1 (by norm_num [waveFrameInterval]),
   (c4_fps_cap (fun _ (w : Unit) => w) (fun _ (w : Unit) => w) 1
      ⟨true, 0, ()⟩ ⟨0, ()⟩).2.2.1 rfl (by norm_num [meshFrameInterval])⟩

/-- C5: animation is paused by visibility and nothing else: while the
`visible` flag is false every mesh-loop iteration performs no clearing,
drawing or node update — the state is returned unchanged — and once visible
again the frame body runs on the next eligible frame (interval elapsed). -/
theorem c5_visibility_pause {W : Type} (frameBody : ℚ → W → W) (now : ℚ)
    (st : MeshLoopState W) :
    (st.visible = false → meshLoop frameBody now st = (st, false)) ∧
    (st.visible = true → meshFrameInterval ≤ now - st.lastFrameTime →
      meshLoop frameBody now st =
        ({ st with lastFrameTime := now, world := frameBody now st.world },
          true)) := by
  refine ⟨fun h => ?_, fun hv h => ?_⟩
  · simp [meshLoop, h]
  · simp [meshLoop, hv, not_lt.2 h]

/-- C5 witness: a hidden state is returned unchanged at timestamp 1000, and
a visible state with last frame at 0 draws at timestamp 1000. -/
theorem c5_visibility_pause_witness :
    meshLoop (fun _ (w : Unit) => w) 1000 ⟨false, 0, ()⟩ =
      (⟨false, 0, ()⟩, false) ∧
    meshLoop (fun _ (w : Unit) => w) 1000 ⟨true, 0, ()⟩ =
      (⟨true, 1000, ()⟩, true) :=
  ⟨(c5_visibility_pause (fun _ (w : Unit) => w) 1000 ⟨false, 0, ()⟩).1 rfl,
   (c5_visibility_pause (fun _ (w : Unit) => w) 1000 ⟨true, 0, ()⟩).2 rfl
     (by norm_num [meshFrameInterval])⟩

/-- The vertex list evaluated: bit `i & 1` drives the first coordinate,
`i & 8` the last. -/
lemma verts4_explicit :
    verts4 =
      [[-1, -1, -1, -1], [1, -1, -1, -1], [-1, 1, -1, -1], [1, 1, -1, -1],
       [-1, -1, 1, -1], [1, -1, 1, -1], [-1, 1, 1, -1], [1, 1, 1, -1],
       [-1, -1, -1, 1], [1, -1, -1, 1], [-1, 1, -1, 1], [1, 1, -1, 1],
       [-1, -1, 1, 1], [1, -1, 1, 1], [-1, 1, 1, 1], [1, 1, 1, 1]] := by
  decide

/-- C6: the tesseract wireframe is structurally a 4-dimensional hypercube:
the 16 vertex rows are pairwise distinct and are exactly the points of
`{-1,+1}^4`, and the edge list contains exactly the index pairs whose rows
differ in exactly one coordinate — 32 edges in all.  The header copy in
part_000 builds identical arrays. -/
theorem c6_tesseract_structure :
    verts4.length = 16 ∧ verts4.Nodup ∧
    (∀ a b c d : ℤ, [a, b, c, d] ∈ verts4 ↔
      ((a = 1 ∨ a = -1) ∧ (b = 1 ∨ b = -1) ∧ (c = 1 ∨ c = -1) ∧
        (d = 1 ∨ d = -1))) ∧
    (verts4.all fun v => v.length = 4) = true ∧
    tessEdges.length = 32 ∧
    (∀ i j : Fin 16, ((i : ℕ), (j : ℕ)) ∈ tessEdges ↔
      ((i : ℕ) < (j : ℕ) ∧
        diffCount (verts4.getD (i : ℕ) []) (verts4.getD (j : ℕ) []) = 1)) ∧
    (tessEdges.all fun e => e.1 < 16 && e.2 < 16) = true ∧
    headerVerts4 = verts4 ∧ headerEdges = tessEdges := by
  refine ⟨by decide, by decide, ?_, by decide, by decide, by decide, by decide,
    by decide, by decide⟩
  intro a b c d
  constructor
  · intro h
    rw [verts4_explicit] at h
    simp only [List.mem_cons, List.not_mem_nil, or_false,
      List.cons.injEq, and_true] at h
    tauto
  · rintro ⟨ha, hb, hc, hd⟩
    rcases ha with rfl | rfl <;> rcases hb with rfl | rfl <;>
      rcases hc with rfl | rfl <;> rcases hd with rfl | rfl <;> decide

/-- C7 counterexample: the mesh variant's `resize` with
`devicePixelRatio = 1` and `innerWidth = innerHeight = 0` leaves the CSS
width at 0 (not ≥ 1 pixel) and sets the backing store to
`max(1, floor(0·1)) = 1`, which differs from the claimed `floor(w·dpr) = 0`. -/
theorem c7_resize_counterexample :
    (resizeMesh 1 0 0).cssW = 0 ∧ ¬(1 ≤ (resizeMesh 1 0 0).cssW) ∧
    (resizeMesh 1 0 0).backingW = 1 ∧
    (resizeMesh 1 0 0).backingW ≠
      ⌊(resizeMesh 1 0 0).cssW * (resizeMesh 1 0 0).dpr⌋ := by
  norm_num [resizeMesh, jsOr]

/-- C7 (amended): after every `resize`, the effective dpr equals
`min(devicePixelRatio or 1, 2)` and the context transform is the pure scaling
by dpr, in both variants.  In the wave variant the CSS dimensions are at
least 1 pixel and the backing store equals `floor(w·dpr) × floor(h·dpr)`; in
the mesh variant the CSS dimensions are `window.innerWidth/innerHeight`
unclamped and the backing store equals `max(1, floor(w·dpr)) ×
max(1, floor(h·dpr))`. -/
theorem c7_resize_amended (dprRaw innerW innerH : ℚ) :
    (resizeWave dprRaw innerW innerH).dpr = min (jsOr dprRaw 1) 2 ∧
    (resizeMesh dprRaw innerW innerH).dpr = min (jsOr dprRaw 1) 2 ∧
    (resizeWave dprRaw innerW innerH).transform =
      ((resizeWave dprRaw innerW innerH).dpr, 0, 0,
        (resizeWave dprRaw innerW innerH).dpr, 0, 0) ∧
    (resizeMesh dprRaw innerW innerH).transform =
      ((resizeMesh dprRaw innerW innerH).dpr, 0, 0,
        (resizeMesh dprRaw innerW innerH).dpr, 0, 0) ∧
    1 ≤ (resizeWave dprRaw innerW innerH).cssW ∧
    1 ≤ (resizeWave dprRaw innerW innerH).cssH ∧
    (resizeWave dprRaw innerW innerH).backingW =
      ⌊(resizeWave dprRaw innerW innerH).cssW *
        (resizeWave dprRaw innerW innerH).dpr⌋ ∧
    (resizeWave dprRaw innerW innerH).backingH =
      ⌊(resizeWave dprRaw innerW innerH).cssH *
        (resizeWave dprRaw innerW innerH).dpr⌋ ∧
    (resizeMesh dprRaw innerW innerH).cssW = innerW ∧
    (resizeMesh dprRaw innerW innerH).cssH = innerH ∧
    (resizeMesh dprRaw innerW innerH).backingW =
      max 1 ⌊(resizeMesh dprRaw innerW innerH).cssW *
        (resizeMesh dprRaw innerW innerH).dpr⌋ ∧
    (resizeMesh dprRaw innerW innerH).backingH =
      max 1 ⌊(resizeMesh dprRaw innerW innerH).cssH *
        (resizeMesh dprRaw innerW innerH).dpr⌋ :=
  ⟨rfl, rfl, rfl, rfl, le_max_left 1 _, le_max_left 1 _, rfl, rfl, rfl, rfl,
    rfl, rfl⟩

/-- C10: the slider index stays in `[0, n)` for a non-empty image list of
length `n`: from any in-range index, `showSlide(index-1)` and
`showSlide(index+1)` land in range again, with `showSlide(index-1)` wrapping
0 to `n-1` and `showSlide(index+1)` wrapping `n-1` to 0. -/
theorem c10_slider_index_in_range (n index : ℤ) (hn : 0 < n)
    (h0 : 0 ≤ index) (h1 : index < n) :
    (0 ≤ showSlide n (index - 1) ∧ showSlide n (index - 1) < n) ∧
    (0 ≤ showSlide n (index + 1) ∧ showSlide n (index + 1) < n) ∧
    (index = 0 → showSlide n (index - 1) = n - 1) ∧
    (index = n - 1 → showSlide n (index + 1) = 0) := by
  have hprev : showSlide n (index - 1) = (index - 1 + n) % n :=
    Int.tmod_eq_emod (by omega) (by omega)
  have hnext : showSlide n (index + 1) = (index + 1 + n) % n :=
    Int.tmod_eq_emod (by omega) (by omega)
  refine ⟨⟨?_, ?_⟩, ⟨?_, ?_⟩, ?_, ?_⟩
  · rw [hprev]; exact Int.emod_nonneg _ (by omega)
  · rw [hprev]; exact Int.emod_lt_of_pos _ hn
  · rw [hnext]; exact Int.emod_nonneg _ (by omega)
  · rw [hnext]; exact Int.emod_lt_of_pos _ hn
  · rintro rfl
    rw [hprev, show (0 : ℤ) - 1 + n = n - 1 by ring]
    exact Int.emod_eq_of_lt (by omega) (by omega)
  · intro h
    rw [hnext, h, show n - 1 + 1 + n = n * 2 by ring, Int.mul_emod_right]

/-- C10 witness: with 3 images and index 0, the previous-slide wrap lands on
2 and the next slide on 1, both in range. -/
theorem c10_slider_index_in_range_witness :
    (0 ≤ showSlide 3 (0 - 1) ∧ showSlide 3 (0 - 1) < 3) ∧
    (0 ≤ showSlide 3 (0 + 1) ∧ showSlide 3 (0 + 1) < 3) ∧
    ((0 : ℤ) = 0 → showSlide 3 (0 - 1) = 3 - 1) ∧
    ((0 : ℤ) = 3 - 1 → showSlide 3 (0 + 1) = 0) :=
  c10_slider_index_in_range 3 0 (by decide) (by decide) (by decide)

/-- C8: node state is ephemeral and regenerated on resize: the resize
handler replaces the entire node array with the freshly built records of
`buildNodes` (no record of the previous array survives), and every record
built carries `z ∈ [0, depth)`, zero initial velocity, a layer index in
`[0, layerCount)` and an energy scalar in `[0, 1)` (plus a phase offset and
a path offset). -/
theorem c8_nodes_regenerated_on_resize (dprRaw innerW innerH : ℝ)
    (draws : ℕ → NodeDraws) (st : MeshAppState)
    (hd : ∀ i, 0 ≤ (draws i).zD ∧ (draws i).zD < 1 ∧
      0 ≤ (draws i).energyD ∧ (draws i).energyD < 1 ∧
      0 ≤ (draws i).layerD ∧ (draws i).layerD < 1) :
    (onResize dprRaw innerW innerH draws st).nodes =
      buildNodes innerW innerH (min (if dprRaw = 0 then 1 else dprRaw) 2)
        draws ∧
    ∀ n ∈ (onResize dprRaw innerW innerH draws st).nodes,
      n.vx = 0 ∧ n.vy = 0 ∧
      0 ≤ n.z ∧ n.z < (cfgMesh.depth : ℝ) ∧
      0 ≤ n.layer ∧ n.layer < (cfgMesh.layerCount : ℤ) ∧
      0 ≤ n.energy ∧ n.energy < 1 := by
  refine ⟨rfl, ?_⟩
  intro n hn
  simp only [onResize, buildNodes, List.mem_map, List.mem_range] at hn
  obtain ⟨i, -, rfl⟩ := hn
  obtain ⟨hz0, hz1, he0, he1, hl0, hl1⟩ := hd i
  have hdepth : (cfgMesh.depth : ℝ) = 2000 := by norm_num [cfgMesh]
  have hlayer : ((cfgMesh.layerCount : ℕ) : ℝ) = 4 := by norm_num [cfgMesh]
  refine ⟨rfl, rfl, ?_, ?_, ?_, ?_, he0, he1⟩
  · show 0 ≤ (draws i).zD * (cfgMesh.depth : ℝ)
    rw [hdepth]; nlinarith
  · show (draws i).zD * (cfgMesh.depth : ℝ) < (cfgMesh.depth : ℝ)
    rw [hdepth]; nlinarith
  · show 0 ≤ ⌊(draws i).layerD * ((cfgMesh.layerCount : ℕ) : ℝ)⌋
    rw [hlayer]
    exact Int.floor_nonneg.2 (by nlinarith)
  · show ⌊(draws i).layerD * ((cfgMesh.layerCount : ℕ) : ℝ)⌋ <
      (cfgMesh.layerCount : ℤ)
    rw [hlayer]
    refine Int.floor_lt.2 ?_
    have : ((cfgMesh.layerCount : ℤ) : ℝ) = 4 := by norm_num [cfgMesh]
    rw [this]; nlinarith

/-- C8 witness: resizing to a 100×100 window with all random draws equal to
1/2 gives back the freshly built node list, whose records all satisfy the
ranges. -/
theorem c8_nodes_regenerated_on_resize_witness :
    (onResize 1 100 100 (fun _ => ⟨1/2, 1/2, 1/2, 1/2, 1/2, 1/2, 1/2⟩)
        ⟨0, 0, 0, []⟩).nodes =
      buildNodes 100 100 (min (if (1 : ℝ) = 0 then 1 else 1) 2)
        (fun _ => ⟨1/2, 1/2, 1/2, 1/2, 1/2, 1/2, 1/2⟩) ∧
    ∀ n ∈ (onResize 1 100 100 (fun _ => ⟨1/2, 1/2, 1/2, 1/2, 1/2, 1/2, 1/2⟩)
        ⟨0, 0, 0, []⟩).nodes,
      n.vx = 0 ∧ n.vy = 0 ∧
      0 ≤ n.z ∧ n.z < (cfgMesh.depth : ℝ) ∧
      0 ≤ n.layer ∧ n.layer < (cfgMesh.layerCount : ℤ) ∧
      0 ≤ n.energy ∧ n.energy < 1 :=
  c8_nodes_regenerated_on_resize 1 100 100
    (fun _ => ⟨1/2, 1/2, 1/2, 1/2, 1/2, 1/2, 1/2⟩) ⟨0, 0, 0, []⟩
    (fun _ => by norm_num)

/-- A plane rotation in coordinates 0,1 preserves the squared norm. -/
lemma nsq_rot4_01 (theta : ℝ) (v : Fin 4 → ℝ) :
    nsq (rot4 theta 0 1 v) = nsq v := by
  have e0 : rot4 theta 0 1 v 0 = v 0 * Real.cos theta - v 1 * Real.sin theta := rfl
  have e1 : rot4 theta 0 1 v 1 = v 0 * Real.sin theta + v 1 * Real.cos theta := rfl
  have e2 : rot4 theta 0 1 v 2 = v 2 := rfl
  have e3 : rot4 theta 0 1 v 3 = v 3 := rfl
  unfold nsq
  rw [e0, e1, e2, e3]
  linear_combination (v 0 ^ 2 + v 1 ^ 2) * Real.sin_sq_add_cos_sq theta

/-- A plane rotation in coordinates 2,3 preserves the squared norm. -/
lemma nsq_rot4_23 (theta : ℝ) (v : Fin 4 → ℝ) :
    nsq (rot4 theta 2 3 v) = nsq v := by
  have e0 : rot4 theta 2 3 v 0 = v 0 := rfl
  have e1 : rot4 theta 2 3 v 1 = v 1 := rfl
  have e2 : rot4 theta 2 3 v 2 = v 2 * Real.cos theta - v 3 * Real.sin theta := rfl
  have e3 : rot4 theta 2 3 v 3 = v 2 * Real.sin theta + v 3 * Real.cos theta := rfl
  unfold nsq
  rw [e0, e1, e2, e3]
  linear_combination (v 2 ^ 2 + v 3 ^ 2) * Real.sin_sq_add_cos_sq theta

/-- A plane rotation in coordinates 0,2 preserves the squared norm. -/
lemma nsq_rot4_02 (theta : ℝ) (v : Fin 4 → ℝ) :
    nsq (rot4 theta 0 2 v) = nsq v := by
  have e0 : rot4 theta 0 2 v 0 = v 0 * Real.cos theta - v 2 * Real.sin theta := rfl
  have e1 : rot4 theta 0 2 v 1 = v 1 := rfl
  have e2 : rot4 theta 0 2 v 2 = v 0 * Real.sin theta + v 2 * Real.cos theta := rfl
  have e3 : rot4 theta 0 2 v 3 = v 3 := rfl
  unfold nsq
  rw [e0, e1, e2, e3]
  linear_combination (v 0 ^ 2 + v 2 ^ 2) * Real.sin_sq_add_cos_sq theta

/-- The rotation chain of `project4To2` preserves the squared norm. -/
lemma nsq_rotatedPoint (v : Fin 4 → ℝ) (theta : ℝ) :
    nsq (rotatedPoint v theta) = nsq v := by
  rw [rotatedPoint, nsq_rot4_02, nsq_rot4_23, nsq_rot4_01]

/-- The rotation chain of `project4To2_small` preserves the squared norm. -/
lemma nsq_rotatedPointSmall (v : Fin 4 → ℝ) (theta : ℝ) :
    nsq (rotatedPointSmall v theta) = nsq v := by
  rw [rotatedPointSmall, nsq_rot4_02, nsq_rot4_23, nsq_rot4_01]

/-- Every tesseract vertex has squared norm 4. -/
lemma nsq_verts4R (v : Fin 4 → ℝ) (hv : v ∈ verts4R) : nsq v = 4 := by
  rw [verts4R, verts4_explicit] at hv
  fin_cases hv <;>
    norm_num [nsq, vecOfRow, show ((0 : Fin 4) : ℕ) = 0 from rfl,
      show ((1 : Fin 4) : ℕ) = 1 from rfl, show ((2 : Fin 4) : ℕ) = 2 from rfl,
      show ((3 : Fin 4) : ℕ) = 3 from rfl]

/-- The last component is bounded by the squared norm. -/
lemma sq_last_le_nsq (p : Fin 4 → ℝ) : p 3 ^ 2 ≤ nsq p := by
  unfold nsq
  nlinarith [sq_nonneg (p 0), sq_nonneg (p 1), sq_nonneg (p 2)]

/-- C9: the 4D-to-2D projection never divides by zero: for every tesseract
vertex and every rotation angle, the planar rotations preserve the Euclidean
norm (which is 2), so the fourth component stays in `[-2, 2]` and the
perspective divisor `3.0 - p[3]·0.9` is at least 1.2 (and the header copy's
`3.2 - p[3]·0.85` is at least 1.5); in particular both are strictly
positive. -/
theorem c9_projection_divisor_positive (v : Fin 4 → ℝ) (hv : v ∈ verts4R)
    (theta : ℝ) :
    (1.2 ≤ projDivisor v theta ∧ 0 < projDivisor v theta) ∧
    (1.5 ≤ projDivisorSmall v theta ∧ 0 < projDivisorSmall v theta) := by
  have h4 : nsq v = 4 := nsq_verts4R v hv
  have hb : rotatedPoint v theta 3 ^ 2 ≤ 4 := by
    have := sq_last_le_nsq (rotatedPoint v theta)
    rwa [nsq_rotatedPoint, h4] at this
  have hbs : rotatedPointSmall v theta 3 ^ 2 ≤ 4 := by
    have := sq_last_le_nsq (rotatedPointSmall v theta)
    rwa [nsq_rotatedPointSmall, h4] at this
  have hle : rotatedPoint v theta 3 ≤ 2 := by nlinarith
  have hles : rotatedPointSmall v theta 3 ≤ 2 := by nlinarith
  unfold projDivisor projDivisorSmall
  norm_num
  constructor <;> constructor <;> nlinarith

/-- C9 witness: the divisors are positive at the vertex `(-1,-1,-1,-1)` and
angle 0. -/
theorem c9_projection_divisor_positive_witness :
    (1.2 ≤ projDivisor (vecOfRow [-1, -1, -1, -1]) 0 ∧
      0 < projDivisor (vecOfRow [-1, -1, -1, -1]) 0) ∧
    (1.5 ≤ projDivisorSmall (vecOfRow [-1, -1, -1, -1]) 0 ∧
      0 < projDivisorSmall (vecOfRow [-1, -1, -1, -1]) 0) :=
  c9_projection_divisor_positive (vecOfRow [-1, -1, -1, -1])
    (List.mem_map_of_mem vecOfRow (by decide)) 0

end Portfolio
